import Mathlib

/-!
Verification of the NER retrieval service (stage 2).

Shallow embedding of the retrieval-and-template-assembly core of the
`milvus_ner_retrieval` repository: the retrieval engine
(`src/core/retrieval_engine.py`), the instruction renderer and the service
facade (`src/stage2_retrieval_service.py`), and the shared constants
(`src/config.py`).

The embedding model and the Milvus vector store are external collaborators:
they are modelled as abstract search functions (a `Store`) that either return
a ranked hit list or fail with a Python-style exception.  Similarity scores
(floats in the source) are modelled as rationals: every claim below depends
on scores only through order comparisons.
-/

namespace NERRetrieval

/-- One entity search hit, as assembled by
`MilvusClient.search_entities` (src/database/milvus_client.py): fields
`entity_text`, `entity_type`, `score`, `distance`. -/
structure EntityHit where
  entity_text : String
  entity_type : String
  score : Rat
  distance : Rat
deriving Repr, DecidableEq

/-- One sentence search hit, as assembled by
`MilvusClient.search_sentences` (src/database/milvus_client.py): fields
`sentence_text`, `ner_labels`, `score`, `distance`. -/
structure SentenceHit where
  sentence_text : String
  ner_labels : String
  score : Rat
  distance : Rat
deriving Repr, DecidableEq

/-- A Python exception: its class name and its message (`str(e)`). -/
structure PyError where
  exc_type : String
  message : String
deriving Repr, DecidableEq

/-- Constant `ENTITY_TYPES` from src/config.py: the fixed, ordered list of the 8
canonical entity types. -/
def ENTITY_TYPES : List String :=
  ["PERSON", "LOCATION", "PRODUCT", "FACILITY", "ART", "GROUP",
   "MISCELLANEOUS", "SCIENCE ENTITY"]

/-- Constant `SUPPORTED_LANGUAGES` from src/config.py. -/
def SUPPORTED_LANGUAGES : List String :=
  ["de", "en", "es", "fr", "ja", "ko", "ru", "zh"]

/-- The store and embedding model, abstracted: `search_sentences query
language top_k` models encoding `query` and searching collection
`sentence_{language}`; `search_entities query language entity_type top_k`
models encoding `query` and searching `entity_{language}` filtered by
`entity_type`.  A `.error` models any exception raised on that path
(encoding failure, missing collection, store failure). -/
structure Store where
  search_sentences : String → String → Nat → Except PyError (List SentenceHit)
  search_entities : String → String → String → Nat → Except PyError (List EntityHit)

/-- Shape of `STAGE2_RETRIEVAL_CONFIG` from src/config.py (the retrieval-parameter
fields the claims depend on; `search_params` is store-internal and out of
scope).  Scores and the threshold are rationals standing in for the
source's floats. -/
structure RetrievalConfig where
  top_k_entities : Nat
  top_k_sentences : Nat
  max_entities_per_type : Nat
  max_examples_in_instruction : Nat
  similarity_threshold : Rat
deriving Repr, DecidableEq

/-- The default values of `STAGE2_RETRIEVAL_CONFIG` in src/config.py. -/
def STAGE2_RETRIEVAL_CONFIG : RetrievalConfig :=
  { top_k_entities := 5
    top_k_sentences := 5
    max_entities_per_type := 5
    max_examples_in_instruction := 5
    similarity_threshold := 0 }

/-- Model of `RetrievalEngine.retrieve_all_entity_types`
(src/core/retrieval_engine.py, lines 107-141): iterates the fixed
`ENTITY_TYPES` list; each per-type search that raises is caught and the
type is recorded with an empty list.  The per-type search
(`retrieve_entities_by_type`, i.e. encode + `search_entities`) is the
abstract argument `search`; the insertion-ordered Python dict is modelled
as an association list in `ENTITY_TYPES` order. -/
def retrieve_all_entity_types
    (search : String → Except PyError (List EntityHit)) :
    List (String × List EntityHit) :=
  ENTITY_TYPES.map (fun entity_type =>
    (entity_type,
      match search entity_type with
      | .ok results => results
      | .error _ => []))

/-- Model of `ENTITY_TYPE_FORMAT.format(entity_type=…, examples=…)` from
src/config.py line 160: the template `"- {entity_type}: \n  e.g. {examples}"`
with both placeholders substituted. -/
def ENTITY_TYPE_FORMAT_format (entity_type examples : String) : String :=
  "- " ++ entity_type ++ ": \n  e.g. " ++ examples

/-- The per-type line of the entity-types block,
`Stage2RetrievalService.generate_instruction_template`
(src/stage2_retrieval_service.py, lines 282-297): take the first
`max_entities_per_type` hits' `entity_text`; if that truncated list is
non-empty join it with `", \n       "` into `ENTITY_TYPE_FORMAT`,
otherwise emit the literal placeholder line. -/
def entity_type_text (max_entities_per_type : Nat) (entity_type : String)
    (entities : List EntityHit) : String :=
  let entity_examples := (entities.take max_entities_per_type).map
    (fun item => item.entity_text)
  if entity_examples.isEmpty then
    "- " ++ entity_type ++ ": \n  e.g. (no examples available)"
  else
    ENTITY_TYPE_FORMAT_format entity_type
      (String.intercalate ", \n       " entity_examples)

/-- The full entity-types block (src/stage2_retrieval_service.py, lines
279-299): one `entity_type_text` line per canonical entity type, in
`ENTITY_TYPES` order, joined by `"\n"`; a type absent from
`entity_results` defaults to `[]` (`entity_results.get(entity_type, [])`). -/
def entity_types_formatted (max_entities_per_type : Nat)
    (entity_results : List (String × List EntityHit)) : String :=
  String.intercalate "\n" (ENTITY_TYPES.map (fun entity_type =>
    entity_type_text max_entities_per_type entity_type
      ((entity_results.lookup entity_type).getD [])))

/-- The example-rendering loop of
`Stage2RetrievalService.generate_instruction_template`
(src/stage2_retrieval_service.py, lines 301-313): `i` is the running
`enumerate` index, `n` is `len(similar_sentences)` (the untruncated
length), `max_examples` is `max_examples_in_instruction`; a blank line is
appended when `i < n - 1 and i < max_examples - 1` (Python integer
arithmetic, hence the `Int` casts). -/
def examples_text_loop (n max_examples : Nat) : Nat → List SentenceHit → String
  | _, [] => ""
  | i, sentence_info :: rest =>
      "Input: " ++ sentence_info.sentence_text ++ "\n"
        ++ "Output: " ++ sentence_info.ner_labels ++ "\n"
        ++ (if (i : Int) < (n : Int) - 1 ∧ (i : Int) < (max_examples : Int) - 1
            then "\n" else "")
        ++ examples_text_loop n max_examples (i + 1) rest

/-- The rendered example block: the loop above runs over
`similar_sentences[:max_examples]` starting at index 0. -/
def examples_text (max_examples : Nat)
    (similar_sentences : List SentenceHit) : String :=
  examples_text_loop similar_sentences.length max_examples 0
    (similar_sentences.take max_examples)

/-- Model of `INSTRUCTION_TEMPLATE.format(entity_types=…, examples=…)` from
src/config.py lines 152-157: Python `str.format` scans the fixed template
once, substituting the two placeholders and unescaping the doubled braces
around `"type"` to literal braces.  The template is a fixed constant: it
takes no language or entity-type argument. -/
def INSTRUCTION_TEMPLATE_format (entity_types examples : String) : String :=
  "Please list all named entities of the following entity types in the input sentence\n"
    ++ entity_types
    ++ "\nHere are some examples:\n"
    ++ examples
    ++ "\nYou should output your results in the format \x7b\"type\": [\"entity\"]\x7d as a JSON.\nInput: "

/-- Model of `Stage2RetrievalService.generate_instruction_template`
(src/stage2_retrieval_service.py, lines 262-330): renders both blocks,
fills the template, then appends the raw query
(`full_instruction = instruction + query`, line 322). -/
def generate_instruction_template (cfg : RetrievalConfig) (query : String)
    (similar_sentences : List SentenceHit)
    (entity_results : List (String × List EntityHit)) : String :=
  INSTRUCTION_TEMPLATE_format
    (entity_types_formatted cfg.max_entities_per_type entity_results)
    (examples_text cfg.max_examples_in_instruction similar_sentences)
    ++ query

/-- Python `str.strip()` (ASCII whitespace: the characters Python treats
as whitespace in the claims' inputs): drop leading and trailing
whitespace characters. -/
def py_strip (s : String) : String :=
  let ws : List Char := [' ', '\t', '\n', '\r', '\x0b', '\x0c']
  String.mk (((s.data.dropWhile (fun c => ws.contains c)).reverse.dropWhile
      (fun c => ws.contains c)).reverse)

/-- Model of `Stage2RetrievalService.validate_input`
(src/stage2_retrieval_service.py, lines 145-175): rejects an
empty-after-strip query (`not query or not query.strip()`), then an
unsupported language; the length check against
`model_config["max_length"]` (`_over_length`) only logs a truncation
warning and the function still returns `True`. -/
def validate_input (max_length : Nat) (query language : String) : Bool :=
  if py_strip query = "" then false
  else if ¬ (language ∈ SUPPORTED_LANGUAGES) then false
  else
    let _over_length := decide (max_length < (py_strip query).length)
    true

/-- Model of `Stage2RetrievalService.retrieve_similar_sentences`
(src/stage2_retrieval_service.py, lines 177-215): the engine call
(`RetrievalEngine.retrieve_similar_sentences` = encode + store search on
`sentence_{language}`) whose failure propagates, followed by the
post-search threshold filter: when `similarity_threshold > 0`, keep only
hits with `score >= threshold`. -/
def retrieve_similar_sentences (cfg : RetrievalConfig) (store : Store)
    (query language : String) : Except PyError (List SentenceHit) :=
  match store.search_sentences query language cfg.top_k_sentences with
  | .error e => .error e
  | .ok similar_sentences =>
    if 0 < cfg.similarity_threshold then
      .ok (similar_sentences.filter
        (fun sentence => decide (cfg.similarity_threshold ≤ sentence.score)))
    else
      .ok similar_sentences

/-- Model of `Stage2RetrievalService.retrieve_entities_by_types`
(src/stage2_retrieval_service.py, lines 217-260): calls the engine's
`retrieve_all_entity_types` (per-type failures already recovered there),
then applies the same post-search threshold filter to every type's list
when `similarity_threshold > 0`. -/
def retrieve_entities_by_types (cfg : RetrievalConfig) (store : Store)
    (query language : String) : List (String × List EntityHit) :=
  let entity_results := retrieve_all_entity_types
    (fun entity_type =>
      store.search_entities query language entity_type cfg.top_k_entities)
  if 0 < cfg.similarity_threshold then
    entity_results.map (fun p =>
      (p.1, p.2.filter (fun entity => decide (cfg.similarity_threshold ≤ entity.score))))
  else
    entity_results

/-- The `statistics` record assembled in
`Stage2RetrievalService.process_single_query`
(src/stage2_retrieval_service.py, lines 378-385).  `processing_time` is
wall-clock time, out of scope. -/
structure Statistics where
  total_similar_sentences : Nat
  total_entities_found : Nat
  entity_types_found : Nat
deriving Repr, DecidableEq

/-- The result dict of `Stage2RetrievalService.process_single_query`
(src/stage2_retrieval_service.py, lines 366-385), under the default
output configuration (`include_similarity_scores` and
`include_statistics` both `True` in `STAGE2_OUTPUT_CONFIG`), so the
`similar_sentences`, `entity_results` and `statistics` keys are present. -/
structure RetrievalResult where
  query : String
  language : String
  instruction_template : String
  similar_sentences : List SentenceHit
  entity_results : List (String × List EntityHit)
  statistics : Statistics
deriving Repr, DecidableEq

/-- Model of `Stage2RetrievalService.process_single_query`
(src/stage2_retrieval_service.py, lines 332-393): validate (raising
`ValueError("输入验证失败")` on failure), retrieve sentences (failure
propagates), retrieve entities per type, render the instruction, assemble
the result with its statistics
(`total_similar_sentences = len(similar_sentences)`,
`total_entities_found = sum of len over entity_results.values()`,
`entity_types_found = count of types with non-empty list`). -/
def process_single_query (cfg : RetrievalConfig) (max_length : Nat)
    (store : Store) (query language : String) :
    Except PyError RetrievalResult :=
  if !(validate_input max_length query language) then
    .error ⟨"ValueError", "输入验证失败"⟩
  else
    match retrieve_similar_sentences cfg store query language with
    | .error e => .error e
    | .ok similar_sentences =>
      let entity_results := retrieve_entities_by_types cfg store query language
      .ok
        { query := query
          language := language
          instruction_template :=
            generate_instruction_template cfg query similar_sentences entity_results
          similar_sentences := similar_sentences
          entity_results := entity_results
          statistics :=
            { total_similar_sentences := similar_sentences.length
              total_entities_found :=
                (entity_results.map (fun p => p.2.length)).sum
              entity_types_found :=
                (entity_results.filter (fun p => !p.2.isEmpty)).length } }

/-- One element of the `queries` argument of
`Stage2RetrievalService.process_batch_queries`
(`query_info.get("query", "")` / `query_info.get("language", "en")`). -/
structure QueryInfo where
  query : String
  language : String
deriving Repr, DecidableEq

/-- One element of the batch output: either a full result or the
error-tagged dict `{"query": …, "language": …, "error": str(e),
"processing_time": 0}` (the constant `processing_time` is out of scope). -/
inductive BatchEntry where
  | ok (result : RetrievalResult)
  | failed (query language error : String)
deriving Repr, DecidableEq

/-- The per-query body of the batch loop
(src/stage2_retrieval_service.py, lines 581-592): a raising query is
caught and recorded as an error entry at its own position. -/
def batch_entry (cfg : RetrievalConfig) (max_length : Nat) (store : Store)
    (query_info : QueryInfo) : BatchEntry :=
  match process_single_query cfg max_length store
      query_info.query query_info.language with
  | .ok result => .ok result
  | .error e => .failed query_info.query query_info.language e.message

/-- Model of `Stage2RetrievalService.process_batch_queries`
(src/stage2_retrieval_service.py, lines 559-602): sequential loop over
the queries, appending one entry per query in input order. -/
def process_batch_queries (cfg : RetrievalConfig) (max_length : Nat)
    (store : Store) (queries : List QueryInfo) : List BatchEntry :=
  queries.map (batch_entry cfg max_length store)

/-! ## Helper lemmas -/

/-- Looking up a key of `l` in the association list `l.map (a ↦ (a, g a))`
returns `g` at that key (the first matching entry carries it, duplicates
or not). -/
theorem lookup_map_pair {β : Type} (g : String → β) (l : List String)
    (t : String) (ht : t ∈ l) :
    (l.map (fun a => (a, g a))).lookup t = some (g t) := by
  induction l with
  | nil => cases ht
  | cons a l ih =>
    by_cases hat : a = t
    · subst hat
      simp [List.lookup]
    · rcases List.mem_cons.mp ht with h | ht
      · exact absurd h.symm hat
      · have hbeq : (t == a) = false := beq_eq_false_iff_ne.mpr fun h => hat h.symm
        simpa [List.lookup, hbeq] using ih ht

/-- Keys of `l.map (a ↦ (a, g a))` are `l` itself. -/
theorem keys_map_pair {β : Type} (g : String → β) (l : List String) :
    (l.map (fun a => (a, g a))).map Prod.fst = l := by
  simp [List.map_map, Function.comp_def]

/-- Transforming every value of an association list commutes with lookup. -/
theorem lookup_map_value {β γ : Type} (f : β → γ)
    (l : List (String × β)) (t : String) :
    (l.map (fun p => (p.1, f p.2))).lookup t = (l.lookup t).map f := by
  induction l with
  | nil => rfl
  | cons p l ih =>
    by_cases hpt : t = p.1
    · subst hpt
      simp [List.lookup]
    · have hbeq : (t == p.1) = false := beq_eq_false_iff_ne.mpr hpt
      simp [List.lookup, hbeq, ih]

/-- Lemma: `retrieve_all_entity_types` always produces exactly one entry per
canonical entity type, in canonical order. -/
theorem retrieve_all_entity_types_keys
    (search : String → Except PyError (List EntityHit)) :
    (retrieve_all_entity_types search).map Prod.fst = ENTITY_TYPES :=
  keys_map_pair _ ENTITY_TYPES

/-- Lookup in the engine's per-type results: the value is the sub-search
result, with a failure downgraded to `[]`. -/
theorem retrieve_all_entity_types_lookup
    (search : String → Except PyError (List EntityHit)) (t : String)
    (ht : t ∈ ENTITY_TYPES) :
    (retrieve_all_entity_types search).lookup t
      = some (match search t with | .ok results => results | .error _ => []) :=
  lookup_map_pair _ ENTITY_TYPES t ht

/-- Keys of the service-level entity retrieval are the canonical types,
whether or not the threshold filter runs. -/
theorem retrieve_entities_by_types_keys (cfg : RetrievalConfig)
    (store : Store) (query language : String) :
    (retrieve_entities_by_types cfg store query language).map Prod.fst
      = ENTITY_TYPES := by
  unfold retrieve_entities_by_types
  by_cases h : 0 < cfg.similarity_threshold
  · simp only [h, if_true, List.map_map]
    simpa using retrieve_all_entity_types_keys _
  · simpa only [h, if_false] using retrieve_all_entity_types_keys _

/-- A key present in the key list of an association list has a value. -/
theorem lookup_isSome_of_mem_keys {β : Type} (l : List (String × β))
    (t : String) (ht : t ∈ l.map Prod.fst) :
    ∃ v, l.lookup t = some v := by
  induction l with
  | nil => cases ht
  | cons p l ih =>
    by_cases hpt : p.1 = t
    · exact ⟨p.2, by subst hpt; simp [List.lookup]⟩
    · have hbeq : (t == p.1) = false := beq_eq_false_iff_ne.mpr fun h => hpt h.symm
      rcases List.mem_cons.mp ht with h | ht
      · exact absurd h.symm hpt
      · simpa [List.lookup, hbeq] using ih ht

/-- Inversion of a successful `process_single_query`: the validation
passed, the (threshold-filtered) sentence retrieval succeeded with the
returned list, and every remaining field of the result is determined. -/
theorem process_single_query_ok_inv (cfg : RetrievalConfig)
    (max_length : Nat) (store : Store) (query language : String)
    (r : RetrievalResult)
    (h : process_single_query cfg max_length store query language = .ok r) :
    validate_input max_length query language = true ∧
    retrieve_similar_sentences cfg store query language = .ok r.similar_sentences ∧
    r.entity_results = retrieve_entities_by_types cfg store query language ∧
    r.query = query ∧ r.language = language ∧
    r.instruction_template
      = generate_instruction_template cfg query r.similar_sentences r.entity_results ∧
    r.statistics
      = { total_similar_sentences := r.similar_sentences.length
          total_entities_found := (r.entity_results.map (fun p => p.2.length)).sum
          entity_types_found :=
            (r.entity_results.filter (fun p => !p.2.isEmpty)).length } := by
  unfold process_single_query at h
  by_cases hv : validate_input max_length query language
  · simp only [hv, Bool.not_true, Bool.false_eq_true, if_false] at h
    cases hss : retrieve_similar_sentences cfg store query language with
    | error e => rw [hss] at h; cases h
    | ok similar_sentences =>
      rw [hss] at h
      have hr := Except.ok.inj h
      subst hr
      exact ⟨hv, rfl, rfl, rfl, rfl, rfl, rfl⟩
  · rw [Bool.not_eq_true] at hv
    simp only [hv, Bool.not_false, if_true] at h
    cases h

/-! ## Concrete stores used to instantiate the theorems -/

/-- A store whose every search succeeds with an empty hit list. -/
def empty_store : Store :=
  { search_sentences := fun _ _ _ => .ok []
    search_entities := fun _ _ _ _ => .ok [] }

/-- A seeded PERSON hit. -/
def obama_hit : EntityHit := ⟨"Barack Obama", "PERSON", 2, 0⟩

/-- A seeded LOCATION hit. -/
def hawaii_hit : EntityHit := ⟨"Hawaii", "LOCATION", 2, 0⟩

/-- A seeded sentence hit with its serialized NER labels. -/
def obama_sentence : SentenceHit :=
  ⟨"Barack Obama was born in Hawaii.",
   "\x7b\"PERSON\": [\"Barack Obama\"], \"LOCATION\": [\"Hawaii\"]\x7d",
   2, 0⟩

/-- A store seeded with one PERSON hit, one LOCATION hit and one sentence. -/
def seeded_store : Store :=
  { search_sentences := fun _ _ _ => .ok [obama_sentence]
    search_entities := fun _ _ entity_type _ =>
      if entity_type = "PERSON" then .ok [obama_hit]
      else if entity_type = "LOCATION" then .ok [hawaii_hit]
      else .ok [] }

/-! ## Claims -/

/-- C1: for every query processed successfully, the `entity_results`
mapping of the returned result has exactly the 8 canonical entity types
as its keys (in canonical order), so every type — including one with zero
hits or a failed sub-search — has an entry, never an absent key. -/
theorem claim1_entity_results_all_types (cfg : RetrievalConfig)
    (max_length : Nat) (store : Store) (query language : String)
    (r : RetrievalResult)
    (h : process_single_query cfg max_length store query language = .ok r) :
    r.entity_results.map Prod.fst = ENTITY_TYPES ∧
    ∀ t ∈ ENTITY_TYPES, ∃ hits, r.entity_results.lookup t = some hits := by
  obtain ⟨-, -, her, -, -, -, -⟩ :=
    process_single_query_ok_inv cfg max_length store query language r h
  constructor
  · rw [her]
    exact retrieve_entities_by_types_keys cfg store query language
  · intro t ht
    apply lookup_isSome_of_mem_keys
    rw [her, retrieve_entities_by_types_keys]
    exact ht

/-- The entity results the empty store produces: all 8 types, all empty. -/
def all_empty_entity_results : List (String × List EntityHit) :=
  ENTITY_TYPES.map (fun entity_type => (entity_type, []))

/-- The concrete result of the C1 witness query against the empty store. -/
def empty_store_result : RetrievalResult :=
  { query := "Barack Obama was born in Hawaii."
    language := "en"
    instruction_template := generate_instruction_template STAGE2_RETRIEVAL_CONFIG
      "Barack Obama was born in Hawaii." [] all_empty_entity_results
    similar_sentences := []
    entity_results := all_empty_entity_results
    statistics := ⟨0, 0, 0⟩ }

/-- Witness for C1: a concrete query against the empty store. -/
theorem claim1_witness :
    process_single_query STAGE2_RETRIEVAL_CONFIG 512 empty_store
        "Barack Obama was born in Hawaii." "en" = .ok empty_store_result ∧
      empty_store_result.entity_results.map Prod.fst = ENTITY_TYPES :=
  ⟨rfl, (claim1_entity_results_all_types STAGE2_RETRIEVAL_CONFIG 512 empty_store
    "Barack Obama was born in Hawaii." "en" empty_store_result rfl).1⟩

/-- C2: in every returned result, `statistics.total_entities_found` is the
sum of the hit-list lengths over all entity types,
`statistics.entity_types_found` is the number of types with a non-empty
hit list, and `statistics.total_similar_sentences` is the length of
`similar_sentences` — for any store, hence any combination of hit-list
sizes. -/
theorem claim2_statistics_correct (cfg : RetrievalConfig)
    (max_length : Nat) (store : Store) (query language : String)
    (r : RetrievalResult)
    (h : process_single_query cfg max_length store query language = .ok r) :
    r.statistics.total_entities_found
      = (r.entity_results.map (fun p => p.2.length)).sum ∧
    r.statistics.entity_types_found
      = (r.entity_results.filter (fun p => decide (p.2 ≠ []))).length ∧
    r.statistics.total_similar_sentences = r.similar_sentences.length := by
  obtain ⟨-, -, -, -, -, -, hstat⟩ :=
    process_single_query_ok_inv cfg max_length store query language r h
  rw [hstat]
  refine ⟨rfl, ?_, rfl⟩
  show (r.entity_results.filter (fun p => !p.2.isEmpty)).length = _
  congr 1
  apply List.filter_congr
  intro p _
  cases p.2 <;> simp

/-- The entity results the seeded store produces. -/
def seeded_entity_results : List (String × List EntityHit) :=
  [("PERSON", [obama_hit]), ("LOCATION", [hawaii_hit]), ("PRODUCT", []),
   ("FACILITY", []), ("ART", []), ("GROUP", []), ("MISCELLANEOUS", []),
   ("SCIENCE ENTITY", [])]

/-- The concrete result of the C2 witness query against the seeded store. -/
def seeded_store_result : RetrievalResult :=
  { query := "Barack Obama was born in Hawaii."
    language := "en"
    instruction_template := generate_instruction_template STAGE2_RETRIEVAL_CONFIG
      "Barack Obama was born in Hawaii." [obama_sentence] seeded_entity_results
    similar_sentences := [obama_sentence]
    entity_results := seeded_entity_results
    statistics := ⟨1, 2, 2⟩ }

/-- Witness for C2: a store seeded with 1 PERSON hit, 1 LOCATION hit and
1 sentence gives `statistics = ⟨1, 2, 2⟩`. -/
theorem claim2_witness :
    process_single_query STAGE2_RETRIEVAL_CONFIG 512 seeded_store
        "Barack Obama was born in Hawaii." "en" = .ok seeded_store_result ∧
      seeded_store_result.statistics.total_entities_found
        = (seeded_store_result.entity_results.map (fun p => p.2.length)).sum ∧
      seeded_store_result.statistics = ⟨1, 2, 2⟩ :=
  ⟨rfl, (claim2_statistics_correct STAGE2_RETRIEVAL_CONFIG 512 seeded_store
    "Barack Obama was born in Hawaii." "en" seeded_store_result rfl).1, rfl⟩

/-- C3: in `retrieve_all_entity_types`, one failing per-type search is
recorded as an empty list while the call still returns a complete mapping
in which every other type's entry is exactly its own search result. -/
theorem claim3_partial_failure_isolation
    (search : String → Except PyError (List EntityHit))
    (t0 : String) (e : PyError)
    (ht0 : t0 ∈ ENTITY_TYPES) (hfail : search t0 = .error e) :
    (retrieve_all_entity_types search).map Prod.fst = ENTITY_TYPES ∧
    (retrieve_all_entity_types search).lookup t0 = some [] ∧
    ∀ t, t ∈ ENTITY_TYPES → t ≠ t0 → ∀ hits, search t = .ok hits →
      (retrieve_all_entity_types search).lookup t = some hits := by
  refine ⟨retrieve_all_entity_types_keys search, ?_, ?_⟩
  · rw [retrieve_all_entity_types_lookup search t0 ht0, hfail]
  · intro t ht _ hits hok
    rw [retrieve_all_entity_types_lookup search t ht, hok]

/-- A per-type search that fails for PERSON only. -/
def person_failing_search : String → Except PyError (List EntityHit) := fun entity_type =>
  if entity_type = "PERSON" then
    .error ⟨"CollectionNotFoundError", "collection entity_en not found"⟩
  else if entity_type = "LOCATION" then .ok [hawaii_hit]
  else .ok []

/-- Witness for C3: with the PERSON search failing, PERSON maps to `[]`
and LOCATION still maps to its own hit. -/
theorem claim3_witness :
    (retrieve_all_entity_types person_failing_search).lookup "PERSON" = some [] ∧
    (retrieve_all_entity_types person_failing_search).lookup "LOCATION"
      = some [hawaii_hit] := by
  constructor
  · exact (claim3_partial_failure_isolation person_failing_search "PERSON"
      ⟨"CollectionNotFoundError", "collection entity_en not found"⟩
      (by decide) rfl).2.1
  · exact (claim3_partial_failure_isolation person_failing_search "PERSON"
      ⟨"CollectionNotFoundError", "collection entity_en not found"⟩
      (by decide) rfl).2.2 "LOCATION" (by decide) (by decide) [hawaii_hit] rfl

/-- C4: batch processing returns one entry per query in input order; the
entry at index `i` is determined by query `i` alone — an error-tagged
entry (query, language, error message) when processing raises, the full
result when it succeeds — so one failing query never disturbs the entries
of the others. -/
theorem claim4_batch_index_isolation (cfg : RetrievalConfig)
    (max_length : Nat) (store : Store) (queries : List QueryInfo)
    (i : Nat) (qi : QueryInfo) (hq : queries[i]? = some qi) :
    (process_batch_queries cfg max_length store queries).length
      = queries.length ∧
    (∀ e, process_single_query cfg max_length store qi.query qi.language
        = .error e →
      (process_batch_queries cfg max_length store queries)[i]?
        = some (.failed qi.query qi.language e.message)) ∧
    (∀ r, process_single_query cfg max_length store qi.query qi.language
        = .ok r →
      (process_batch_queries cfg max_length store queries)[i]?
        = some (.ok r)) ∧
    (∀ queries' : List QueryInfo, queries'[i]? = some qi →
      (process_batch_queries cfg max_length store queries')[i]?
        = (process_batch_queries cfg max_length store queries)[i]?) := by
  refine ⟨List.length_map _ _, ?_, ?_, ?_⟩
  · intro e he
    unfold process_batch_queries
    rw [List.getElem?_map, hq]
    simp [batch_entry, he]
  · intro r hr
    unfold process_batch_queries
    rw [List.getElem?_map, hq]
    simp [batch_entry, hr]
  · intro queries' hq'
    unfold process_batch_queries
    rw [List.getElem?_map, List.getElem?_map, hq, hq']

/-- The 3-query batch of the C4 witness: query #2 has an unsupported
language and fails; #1 and #3 succeed against the seeded store. -/
def example_batch_queries : List QueryInfo :=
  [⟨"Barack Obama was born in Hawaii.", "en"⟩,
   ⟨"hello", "xx"⟩,
   ⟨"Barack Obama was born in Hawaii.", "en"⟩]

/-- Witness for C4: in a batch of 3 where #2 fails validation, the output
has 3 entries, entry #2 is error-tagged, and entries #1 and #3 are the
full result. -/
theorem claim4_witness :
    (process_batch_queries STAGE2_RETRIEVAL_CONFIG 512 seeded_store
        example_batch_queries).length = 3 ∧
    (process_batch_queries STAGE2_RETRIEVAL_CONFIG 512 seeded_store
        example_batch_queries)[1]? = some (.failed "hello" "xx" "输入验证失败") ∧
    (process_batch_queries STAGE2_RETRIEVAL_CONFIG 512 seeded_store
        example_batch_queries)[0]? = some (.ok seeded_store_result) ∧
    (process_batch_queries STAGE2_RETRIEVAL_CONFIG 512 seeded_store
        example_batch_queries)[2]? = some (.ok seeded_store_result) := by
  refine ⟨(claim4_batch_index_isolation STAGE2_RETRIEVAL_CONFIG 512 seeded_store
      example_batch_queries 1 ⟨"hello", "xx"⟩ rfl).1, ?_, ?_, ?_⟩
  · exact (claim4_batch_index_isolation STAGE2_RETRIEVAL_CONFIG 512 seeded_store
      example_batch_queries 1 ⟨"hello", "xx"⟩ rfl).2.1
      ⟨"ValueError", "输入验证失败"⟩ rfl
  · exact (claim4_batch_index_isolation STAGE2_RETRIEVAL_CONFIG 512 seeded_store
      example_batch_queries 0 ⟨"Barack Obama was born in Hawaii.", "en"⟩ rfl).2.2.1
      seeded_store_result rfl
  · exact (claim4_batch_index_isolation STAGE2_RETRIEVAL_CONFIG 512 seeded_store
      example_batch_queries 2 ⟨"Barack Obama was born in Hawaii.", "en"⟩ rfl).2.2.1
      seeded_store_result rfl

/-- C5: the full instruction is the fixed, language-independent template
(including the literal JSON-contract line) with the two blocks
substituted, followed by the trailing `"Input: "` concatenated directly
with the verbatim query — for every query and every pair of rendered
blocks. -/
theorem claim5_instruction_template_shape (cfg : RetrievalConfig)
    (query : String) (similar_sentences : List SentenceHit)
    (entity_results : List (String × List EntityHit)) :
    generate_instruction_template cfg query similar_sentences entity_results
      = "Please list all named entities of the following entity types in the input sentence\n"
        ++ entity_types_formatted cfg.max_entities_per_type entity_results
        ++ "\nHere are some examples:\n"
        ++ examples_text cfg.max_examples_in_instruction similar_sentences
        ++ "\nYou should output your results in the format \x7b\"type\": [\"entity\"]\x7d as a JSON.\nInput: "
        ++ query ∧
    (∃ s, generate_instruction_template cfg query similar_sentences entity_results
        = s ++ ("Input: " ++ query)) := by
  constructor
  · rfl
  · refine ⟨"Please list all named entities of the following entity types in the input sentence\n"
      ++ entity_types_formatted cfg.max_entities_per_type entity_results
      ++ "\nHere are some examples:\n"
      ++ examples_text cfg.max_examples_in_instruction similar_sentences
      ++ "\nYou should output your results in the format \x7b\"type\": [\"entity\"]\x7d as a JSON.\n", ?_⟩
    show INSTRUCTION_TEMPLATE_format _ _ ++ query = _
    simp only [INSTRUCTION_TEMPLATE_format, String.append_assoc]
    congr 4

/-- C6 counterexample: with `maxExamples = 0` and a non-empty hit list the
code renders the placeholder line, not the joined-template form the claim
prescribes for every non-empty hit list. -/
theorem claim6_counterexample :
    entity_type_text 0 "PERSON" [obama_hit]
        = "- PERSON: \n  e.g. (no examples available)" ∧
    entity_type_text 0 "PERSON" [obama_hit]
        ≠ ENTITY_TYPE_FORMAT_format "PERSON"
            (String.intercalate ", \n       "
              (([obama_hit].take 0).map (fun item => item.entity_text))) :=
  ⟨rfl, by decide⟩

/-- C6 (amended): the entity-types block renders the types in the fixed
canonical order; a type's line is built from the first `maxExamples` hit
texts — when that truncated list is non-empty they are joined by
`", \n       "` into `"- {type}: \n  e.g. {examples}"`, and when it is
empty (zero hits, or `maxExamples = 0`) the line is exactly
`"- {type}: \n  e.g. (no examples available)"`. -/
theorem claim6_entity_block (max_entities_per_type : Nat)
    (entity_results : List (String × List EntityHit)) :
    entity_types_formatted max_entities_per_type entity_results
      = String.intercalate "\n" (ENTITY_TYPES.map (fun entity_type =>
          entity_type_text max_entities_per_type entity_type
            ((entity_results.lookup entity_type).getD []))) ∧
    ∀ entity_type hits,
      (hits.take max_entities_per_type ≠ [] →
        entity_type_text max_entities_per_type entity_type hits
          = "- " ++ entity_type ++ ": \n  e.g. "
            ++ String.intercalate ", \n       "
              ((hits.take max_entities_per_type).map (fun item => item.entity_text))) ∧
      (hits.take max_entities_per_type = [] →
        entity_type_text max_entities_per_type entity_type hits
          = "- " ++ entity_type ++ ": \n  e.g. (no examples available)") := by
  refine ⟨rfl, ?_⟩
  intro entity_type hits
  constructor
  · intro h
    have hne : ¬ (((hits.take max_entities_per_type).map
        (fun item => item.entity_text)).isEmpty = true) := by
      cases htake : hits.take max_entities_per_type with
      | nil => exact absurd htake h
      | cons a t => simp [htake]
    simp only [entity_type_text]
    rw [if_neg hne]
    rfl
  · intro h
    simp [entity_type_text, h]

/-- Witness for C6 (amended): a type with one hit renders the joined form,
a type with no hits renders the placeholder. -/
theorem claim6_witness :
    entity_type_text 5 "PERSON" [obama_hit] = "- PERSON: \n  e.g. Barack Obama" ∧
    entity_type_text 5 "ART" [] = "- ART: \n  e.g. (no examples available)" := by
  constructor
  · have h := ((claim6_entity_block 5 []).2 "PERSON" [obama_hit]).1 (by decide)
    rw [h]
    rfl
  · exact ((claim6_entity_block 5 []).2 "ART" []).2 rfl

/-- One rendered example pair: the `"Input: …\n"` line followed by the
`"Output: …\n"` line. -/
def example_pair (sentence_info : SentenceHit) : String :=
  "Input: " ++ sentence_info.sentence_text ++ "\n"
    ++ "Output: " ++ sentence_info.ner_labels ++ "\n"

/-- Specification-side rendering of the example block: the pairs in their
given order, a blank line between consecutive pairs, none after the last. -/
def join_example_pairs : List SentenceHit → String
  | [] => ""
  | [sentence_info] => example_pair sentence_info
  | sentence_info :: rest =>
      example_pair sentence_info ++ "\n" ++ join_example_pairs rest

/-- The rendering loop equals the blank-line-separated join whenever the
running index plus the remaining suffix length is `min max_examples n`
(as holds for the truncated list starting at index 0). -/
theorem examples_text_loop_join (n max_examples : Nat) :
    ∀ (l : List SentenceHit) (i : Nat),
      i + l.length = min max_examples n →
      examples_text_loop n max_examples i l = join_example_pairs l := by
  intro l
  induction l with
  | nil => intro i _; rfl
  | cons s rest ih =>
    intro i hi
    cases rest with
    | nil =>
      have hcond : ¬ ((i : Int) < (n : Int) - 1
          ∧ (i : Int) < (max_examples : Int) - 1) := by
        simp only [List.length_cons, List.length_nil] at hi
        omega
      show example_pair s
          ++ (if (i : Int) < (n : Int) - 1 ∧ (i : Int) < (max_examples : Int) - 1
              then "\n" else "")
          ++ "" = join_example_pairs [s]
      rw [if_neg hcond, String.append_empty, String.append_empty]
      rfl
    | cons s2 rest2 =>
      have hcond : (i : Int) < (n : Int) - 1
          ∧ (i : Int) < (max_examples : Int) - 1 := by
        simp only [List.length_cons] at hi
        constructor <;> omega
      have hi' : (i + 1) + (s2 :: rest2).length = min max_examples n := by
        simp only [List.length_cons] at hi ⊢
        omega
      show example_pair s
          ++ (if (i : Int) < (n : Int) - 1 ∧ (i : Int) < (max_examples : Int) - 1
              then "\n" else "")
          ++ examples_text_loop n max_examples (i + 1) (s2 :: rest2)
        = join_example_pairs (s :: s2 :: rest2)
      rw [if_pos hcond, ih (i + 1) hi']
      rfl

/-- C7: for every hit list and every `maxExamples`, the rendered example
block is exactly the first `min maxExamples n` pairs in input order —
each an `"Input: …\n"` / `"Output: …\n"` line pair — with a blank line
between consecutive pairs and none after the last rendered pair. -/
theorem claim7_example_block (max_examples : Nat)
    (similar_sentences : List SentenceHit) :
    examples_text max_examples similar_sentences
      = join_example_pairs (similar_sentences.take max_examples) ∧
    (similar_sentences.take max_examples).length
      = min max_examples similar_sentences.length :=
  ⟨examples_text_loop_join similar_sentences.length max_examples
    (similar_sentences.take max_examples) 0 (by simp [List.length_take]),
   List.length_take max_examples similar_sentences⟩

/-- Unfolding of the service sentence retrieval on a successful store
search: the threshold filter runs exactly when the threshold is positive. -/
theorem retrieve_similar_sentences_ok (cfg : RetrievalConfig) (store : Store)
    (query language : String) (results : List SentenceHit)
    (hok : store.search_sentences query language cfg.top_k_sentences
      = .ok results) :
    retrieve_similar_sentences cfg store query language
      = .ok (if 0 < cfg.similarity_threshold
             then results.filter
               (fun sentence => decide (cfg.similarity_threshold ≤ sentence.score))
             else results) := by
  unfold retrieve_similar_sentences
  rw [hok]
  show (if 0 < cfg.similarity_threshold then
      Except.ok (results.filter
        (fun sentence => decide (cfg.similarity_threshold ≤ sentence.score)))
    else Except.ok results)
    = Except.ok (if 0 < cfg.similarity_threshold then
      results.filter
        (fun sentence => decide (cfg.similarity_threshold ≤ sentence.score))
    else results)
  by_cases hpos : 0 < cfg.similarity_threshold
  · rw [if_pos hpos, if_pos hpos]
  · rw [if_neg hpos, if_neg hpos]

/-- Unfolding of the service entity retrieval at a canonical entity type
whose store search succeeds. -/
theorem retrieve_entities_by_types_lookup (cfg : RetrievalConfig)
    (store : Store) (query language entity_type : String)
    (ht : entity_type ∈ ENTITY_TYPES) (hits : List EntityHit)
    (hok : store.search_entities query language entity_type cfg.top_k_entities
      = .ok hits) :
    (retrieve_entities_by_types cfg store query language).lookup entity_type
      = some (if 0 < cfg.similarity_threshold
              then hits.filter
                (fun entity => decide (cfg.similarity_threshold ≤ entity.score))
              else hits) := by
  by_cases hpos : 0 < cfg.similarity_threshold
  · simp only [retrieve_entities_by_types, hpos, if_true]
    rw [lookup_map_value, retrieve_all_entity_types_lookup _ _ ht, hok]
    rfl
  · simp only [retrieve_entities_by_types, hpos, if_false]
    rw [retrieve_all_entity_types_lookup _ _ ht, hok]

/-- C8: when the configured threshold is positive, both the sentence list
and every canonical entity type's list returned by the store are pruned
post-search to the hits with `score ≥ threshold` (an order-preserving
subsequence of the store's results); when the threshold is 0, the store's
results are kept unchanged. -/
theorem claim8_threshold_filter (cfg : RetrievalConfig) (store : Store)
    (query language : String) :
    (∀ results, store.search_sentences query language cfg.top_k_sentences
        = .ok results →
      (0 < cfg.similarity_threshold →
        retrieve_similar_sentences cfg store query language
          = .ok (results.filter
              (fun sentence => decide (cfg.similarity_threshold ≤ sentence.score))) ∧
        List.Sublist
          (results.filter
            (fun sentence => decide (cfg.similarity_threshold ≤ sentence.score)))
          results) ∧
      (cfg.similarity_threshold = 0 →
        retrieve_similar_sentences cfg store query language = .ok results)) ∧
    (∀ entity_type hits, entity_type ∈ ENTITY_TYPES →
      store.search_entities query language entity_type cfg.top_k_entities
        = .ok hits →
      (0 < cfg.similarity_threshold →
        (retrieve_entities_by_types cfg store query language).lookup entity_type
          = some (hits.filter
              (fun entity => decide (cfg.similarity_threshold ≤ entity.score))) ∧
        List.Sublist
          (hits.filter
            (fun entity => decide (cfg.similarity_threshold ≤ entity.score)))
          hits) ∧
      (cfg.similarity_threshold = 0 →
        (retrieve_entities_by_types cfg store query language).lookup entity_type
          = some hits)) := by
  constructor
  · intro results hok
    constructor
    · intro hpos
      refine ⟨?_, List.filter_sublist results⟩
      rw [retrieve_similar_sentences_ok cfg store query language results hok,
        if_pos hpos]
    · intro hzero
      rw [retrieve_similar_sentences_ok cfg store query language results hok,
        if_neg (by rw [hzero]; exact lt_irrefl 0)]
  · intro entity_type hits ht hok
    constructor
    · intro hpos
      refine ⟨?_, List.filter_sublist hits⟩
      rw [retrieve_entities_by_types_lookup cfg store query language
        entity_type ht hits hok, if_pos hpos]
    · intro hzero
      rw [retrieve_entities_by_types_lookup cfg store query language
        entity_type ht hits hok, if_neg (by rw [hzero]; exact lt_irrefl 0)]

/-- A configuration with a positive similarity threshold. -/
def thresholded_config : RetrievalConfig :=
  { STAGE2_RETRIEVAL_CONFIG with similarity_threshold := 1 }

/-- A store returning one above-threshold and one below-threshold hit for
sentences and for PERSON entities. -/
def mixed_score_store : Store :=
  { search_sentences := fun _ _ _ =>
      .ok [⟨"high", "L1", 2, 0⟩, ⟨"low", "L2", 0, 0⟩]
    search_entities := fun _ _ entity_type _ =>
      if entity_type = "PERSON" then
        .ok [⟨"High", "PERSON", 2, 0⟩, ⟨"Low", "PERSON", 0, 0⟩]
      else .ok [] }

/-- Witness for C8: with threshold 1 the below-threshold hits are dropped
from both the sentence list and the PERSON list; with the default
threshold 0 everything is kept. -/
theorem claim8_witness :
    retrieve_similar_sentences thresholded_config mixed_score_store "q" "en"
      = .ok [⟨"high", "L1", 2, 0⟩] ∧
    (retrieve_entities_by_types thresholded_config mixed_score_store "q" "en").lookup
        "PERSON" = some [⟨"High", "PERSON", 2, 0⟩] ∧
    retrieve_similar_sentences STAGE2_RETRIEVAL_CONFIG mixed_score_store "q" "en"
      = .ok [⟨"high", "L1", 2, 0⟩, ⟨"low", "L2", 0, 0⟩] := by
  refine ⟨?_, ?_, ?_⟩
  · exact ((((claim8_threshold_filter thresholded_config mixed_score_store "q" "en").1
      [⟨"high", "L1", 2, 0⟩, ⟨"low", "L2", 0, 0⟩] rfl).1 (by decide)).1).trans
      (congrArg Except.ok (by decide))
  · exact ((((claim8_threshold_filter thresholded_config mixed_score_store "q" "en").2
      "PERSON" [⟨"High", "PERSON", 2, 0⟩, ⟨"Low", "PERSON", 0, 0⟩]
      (by decide) rfl).1 (by decide)).1).trans (congrArg some (by decide))
  · exact (((claim8_threshold_filter STAGE2_RETRIEVAL_CONFIG mixed_score_store "q" "en").1
      [⟨"high", "L1", 2, 0⟩, ⟨"low", "L2", 0, 0⟩] rfl).2 rfl)

/-- C9 counterexample: both rejection cases — unsupported language and
blank query — raise the same generic `ValueError("输入验证失败")`; there is
no distinct `UnsupportedLanguageError` or `InvalidInputError` in the code. -/
theorem claim9_counterexample :
    process_single_query STAGE2_RETRIEVAL_CONFIG 512 empty_store "Hello world" "xx"
      = .error ⟨"ValueError", "输入验证失败"⟩ ∧
    process_single_query STAGE2_RETRIEVAL_CONFIG 512 empty_store "   " "en"
      = .error ⟨"ValueError", "输入验证失败"⟩ ∧
    "ValueError" ≠ "UnsupportedLanguageError" ∧
    "ValueError" ≠ "InvalidInputError" :=
  ⟨rfl, rfl, by decide, by decide⟩

/-- C9 (amended): single-query processing validates before any search —
an unsupported language or an empty-after-strip query fails with the one
generic `ValueError("输入验证失败")` (the same exception for both cases),
and the outcome is identical for every store, so no vector-store or
embedding call is issued for a rejected input. -/
theorem claim9_validation_before_search (cfg : RetrievalConfig)
    (max_length : Nat) (query language : String)
    (hreject : py_strip query = "" ∨ language ∉ SUPPORTED_LANGUAGES) :
    ∀ store : Store, process_single_query cfg max_length store query language
      = .error ⟨"ValueError", "输入验证失败"⟩ := by
  intro store
  have hv : validate_input max_length query language = false := by
    unfold validate_input
    rcases hreject with h | h
    · rw [if_pos h]
    · by_cases hq : py_strip query = ""
      · rw [if_pos hq]
      · rw [if_neg hq, if_pos h]
  unfold process_single_query
  rw [hv]
  rfl

/-- Witness for C9 (amended): the unsupported language "xx" is rejected
without touching the seeded store. -/
theorem claim9_witness :
    process_single_query STAGE2_RETRIEVAL_CONFIG 512 seeded_store
        "Hello world" "xx" = .error ⟨"ValueError", "输入验证失败"⟩ :=
  claim9_validation_before_search STAGE2_RETRIEVAL_CONFIG 512 "Hello world" "xx"
    (Or.inr (by decide)) seeded_store

/-- C10: a supported-language query that is non-empty after stripping
still validates even when its stripped length exceeds the configured
`max_length` (the length check only logs a warning), and retrieval
proceeds: whenever the store's sentence search succeeds, processing
returns a full result. -/
theorem claim10_overlong_query_not_rejected (cfg : RetrievalConfig)
    (max_length : Nat) (store : Store) (query language : String)
    (hq : py_strip query ≠ "") (hl : language ∈ SUPPORTED_LANGUAGES)
    (hlen : max_length < (py_strip query).length) :
    validate_input max_length query language = true ∧
    ∀ results, store.search_sentences query language cfg.top_k_sentences
        = .ok results →
      ∃ r, process_single_query cfg max_length store query language = .ok r ∧
        r.query = query ∧ r.language = language := by
  have hv : validate_input max_length query language = true := by
    unfold validate_input
    rw [if_neg hq, if_neg (by simpa using hl)]
  refine ⟨hv, ?_⟩
  intro results hok
  have hsent := retrieve_similar_sentences_ok cfg store query language results hok
  refine ⟨{ query := query, language := language
            instruction_template := generate_instruction_template cfg query
              (if 0 < cfg.similarity_threshold
               then results.filter
                 (fun sentence => decide (cfg.similarity_threshold ≤ sentence.score))
               else results)
              (retrieve_entities_by_types cfg store query language)
            similar_sentences :=
              (if 0 < cfg.similarity_threshold
               then results.filter
                 (fun sentence => decide (cfg.similarity_threshold ≤ sentence.score))
               else results)
            entity_results := retrieve_entities_by_types cfg store query language
            statistics :=
              ⟨(if 0 < cfg.similarity_threshold
                then results.filter
                  (fun sentence => decide (cfg.similarity_threshold ≤ sentence.score))
                else results).length,
               ((retrieve_entities_by_types cfg store query language).map
                 (fun p => p.2.length)).sum,
               ((retrieve_entities_by_types cfg store query language).filter
                 (fun p => !p.2.isEmpty)).length⟩ }, ?_, rfl, rfl⟩
  unfold process_single_query
  rw [hv, hsent]
  rfl

/-- Witness for C10: with `max_length = 1` the stripped query "abc"
(length 3) is over the limit yet validates and is processed. -/
theorem claim10_witness :
    validate_input 1 "abc" "en" = true ∧
    ∃ r, process_single_query STAGE2_RETRIEVAL_CONFIG 1 empty_store "abc" "en"
        = .ok r ∧ r.query = "abc" ∧ r.language = "en" := by
  have h := claim10_overlong_query_not_rejected STAGE2_RETRIEVAL_CONFIG 1
    empty_store "abc" "en" (by decide) (by decide) (by decide)
  exact ⟨h.1, h.2 [] rfl⟩

end NERRetrieval
